import Mathlib

/-!
# Verification of the task-tracker core (src/task_tracker.py)

Shallow embedding of the persistence and reminder logic:

* the SQLite `tasks` table is modelled by `DB`: presence flags for the three
  extended columns (`priority`, `status`, `created_at`), a flag recording
  whether the `created_at` column carries the `CURRENT_TIMESTAMP` default
  (true when the table was created fresh, false when the column was added by
  `ALTER TABLE`), the autoincrement counter and the list of rows;
* a row stores the three extended fields as `Option String` (`none` = SQL
  NULL; when the corresponding column is absent the field is unused and kept
  `none`);
* every SQL statement is executed through `requireColumns`, which errors with
  SQLite's "no such column" exactly when the statement names an absent column;
* Python `datetime` values are modelled as seconds on an integer time line
  aligned so that `ordinal * 86400` is midnight of the day with proleptic
  Gregorian ordinal `ordinal` (Python `date.toordinal`); `timedelta.days` is
  floor division, i.e. `Int.fdiv`.
-/

/-- One stored row of the `tasks` table. -/
structure TaskRow where
  id : Nat
  title : String
  deadline : String
  problems : String
  requirements : String
  priority : Option String
  status : Option String
  created_at : Option String
deriving DecidableEq

/-- Database file state: table presence, column presence, rows. -/
structure DB where
  tableExists : Bool
  hasPriority : Bool
  hasStatus : Bool
  hasCreatedAt : Bool
  createdAtDefault : Bool
  nextId : Nat
  rows : List TaskRow
deriving DecidableEq

/-- The column names physically present in the `tasks` table. -/
def columnsOf (db : DB) : List String :=
  ["id", "title", "deadline", "problems", "requirements"]
    ++ (if db.hasPriority then ["priority"] else [])
    ++ (if db.hasStatus then ["status"] else [])
    ++ (if db.hasCreatedAt then ["created_at"] else [])

/-- SQLite name resolution: executing a statement that names an absent column
fails with a `no such column` error. -/
def requireColumns (refs : List String) (db : DB) : Except String Unit :=
  match refs.find? (fun c => !(columnsOf db).contains c) with
  | some c => .error ("no such column: " ++ c)
  | none => .ok ()

/-- `ALTER TABLE tasks ADD COLUMN priority TEXT DEFAULT "Medium"`: fails if the
column already exists; existing rows read the default value afterwards. -/
def alterAddPriority (db : DB) : Except String DB :=
  if db.hasPriority then .error "duplicate column name: priority"
  else .ok { db with
    hasPriority := true
    rows := db.rows.map (fun r => { r with priority := some "Medium" }) }

/-- `ALTER TABLE tasks ADD COLUMN status TEXT DEFAULT "Pending"`. -/
def alterAddStatus (db : DB) : Except String DB :=
  if db.hasStatus then .error "duplicate column name: status"
  else .ok { db with
    hasStatus := true
    rows := db.rows.map (fun r => { r with status := some "Pending" }) }

/-- `ALTER TABLE tasks ADD COLUMN created_at TEXT`: no default, existing rows
read NULL. -/
def alterAddCreatedAt (db : DB) : Except String DB :=
  if db.hasCreatedAt then .error "duplicate column name: created_at"
  else .ok { db with hasCreatedAt := true }

/-- `UPDATE tasks SET created_at = datetime("now") WHERE created_at IS NULL`. -/
def backfillCreatedAt (nowStr : String) (db : DB) : DB :=
  { db with rows := db.rows.map (fun r =>
      if r.created_at = none then { r with created_at := some nowStr } else r) }

/-- `CREATE TABLE IF NOT EXISTS tasks (...)` with the full 8-column schema,
`created_at TEXT DEFAULT CURRENT_TIMESTAMP`. -/
def createTableIfNotExists (db : DB) : DB :=
  if db.tableExists then db
  else { db with
    tableExists := true, hasPriority := true, hasStatus := true,
    hasCreatedAt := true, createdAtDefault := true }

/-- `init_db` (src/task_tracker.py lines 10-45): create the table if absent,
then add each of the three extended columns when missing, backfilling
`created_at` for existing rows with the current timestamp. -/
def init_db (nowStr : String) (db : DB) : Except String DB := do
  let db := createTableIfNotExists db
  let db ← if !db.hasPriority then alterAddPriority db else pure db
  let db ← if !db.hasStatus then alterAddStatus db else pure db
  let db ←
    if !db.hasCreatedAt then do
      let db ← alterAddCreatedAt db
      pure (backfillCreatedAt nowStr db)
    else pure db
  pure db

/-- The column list named by the INSERT statement `add_task` executes
(src/task_tracker.py lines 56-64): the 7-column insert when all three extended
columns exist, the baseline 4-column insert otherwise. -/
def add_task_columns (db : DB) : List String :=
  if db.hasPriority && db.hasStatus && db.hasCreatedAt then
    ["title", "deadline", "problems", "requirements", "priority", "status", "created_at"]
  else
    ["title", "deadline", "problems", "requirements"]

/-- Fields of a row inserted by the baseline 4-column INSERT: columns not named
receive their column default (`Medium` / `Pending`; `created_at` receives
`CURRENT_TIMESTAMP` only when the column was created with that default,
otherwise NULL); absent columns store nothing. -/
def baselineRow (nowStr title deadline problems requirements : String) (db : DB) : TaskRow :=
  { id := db.nextId, title := title, deadline := deadline,
    problems := problems, requirements := requirements
    priority := if db.hasPriority then some "Medium" else none
    status := if db.hasStatus then some "Pending" else none
    created_at :=
      if db.hasCreatedAt then
        (if db.createdAtDefault then some nowStr else none)
      else none }

/-- Fields of the row inserted by the 7-column INSERT: the `priority` argument,
`status` fixed to `'Pending'`, `created_at` the current timestamp. -/
def extendedRow (nowStr title deadline problems requirements priority : String)
    (db : DB) : TaskRow :=
  { id := db.nextId, title := title, deadline := deadline,
    problems := problems, requirements := requirements,
    priority := some priority, status := some "Pending",
    created_at := some nowStr }

/-- `add_task` (src/task_tracker.py lines 48-67): PRAGMA-checks the columns,
then runs the 7-column insert (status fixed to `'Pending'`, `created_at` the
current timestamp) when `priority`, `status` and `created_at` all exist, and
the baseline 4-column insert otherwise. -/
def add_task (nowStr title deadline problems requirements priority : String)
    (db : DB) : Except String DB := do
  requireColumns (add_task_columns db) db
  if db.hasPriority && db.hasStatus && db.hasCreatedAt then
    pure { db with
      nextId := db.nextId + 1
      rows := db.rows ++ [extendedRow nowStr title deadline problems requirements priority db] }
  else
    pure { db with
      nextId := db.nextId + 1
      rows := db.rows ++ [baselineRow nowStr title deadline problems requirements db] }

/-- `update_task_status` (src/task_tracker.py lines 118-123):
`UPDATE tasks SET status = ? WHERE id = ?` — names the `status` column
unconditionally. -/
def update_task_status (taskId : Nat) (status : String) (db : DB) :
    Except String DB := do
  requireColumns ["status", "id"] db
  pure { db with rows := db.rows.map (fun r =>
    if r.id = taskId then { r with status := some status } else r) }

/-- `delete_task` (src/task_tracker.py lines 126-131):
`DELETE FROM tasks WHERE id=?`. -/
def delete_task (taskId : Nat) (db : DB) : Except String DB := do
  requireColumns ["id"] db
  pure { db with rows := db.rows.filter (fun r => r.id ≠ taskId) }

/-- The uniform 8-field record returned by `get_tasks`: absent columns are
substituted (`"Medium"`, `"Pending"`, `datetime("now")`) in the SELECT list. -/
structure TaskRec where
  id : Nat
  title : String
  deadline : String
  problems : String
  requirements : String
  priority : Option String
  status : Option String
  created_at : Option String
deriving DecidableEq

/-- The SELECT list of `get_tasks` applied to one row
(src/task_tracker.py lines 79-95). -/
def selectRec (nowStr : String) (db : DB) (r : TaskRow) : TaskRec :=
  { id := r.id, title := r.title, deadline := r.deadline,
    problems := r.problems, requirements := r.requirements
    priority := if db.hasPriority then r.priority else some "Medium"
    status := if db.hasStatus then r.status else some "Pending"
    created_at := if db.hasCreatedAt then r.created_at else some nowStr }

/-- `ORDER BY CASE priority WHEN "High" THEN 1 WHEN "Medium" THEN 2
WHEN "Low" THEN 3 END` (src/task_tracker.py line 108): any other value, NULL
included, yields SQL NULL, which sorts before every number in ascending order
(modelled by `⊥` in `WithBot ℕ`). -/
def priorityCase (p : Option String) : WithBot ℕ :=
  if p = some "High" then (1 : ℕ)
  else if p = some "Medium" then (2 : ℕ)
  else if p = some "Low" then (3 : ℕ)
  else ⊥

/-- Lexicographic (BINARY collation) less-or-equal on character lists, the
order SQLite applies to TEXT values. -/
def charsLe : List Char → List Char → Bool
  | [], _ => true
  | _ :: _, [] => false
  | a :: as, b :: bs => if a = b then charsLe as bs else decide (a < b)

/-- BINARY-collation less-or-equal on strings. -/
def strLe (s t : String) : Bool := charsLe s.toList t.toList

/-- Less-or-equal on the priority CASE rank with SQL NULL (`⊥`) first, the
ascending order SQLite applies to the CASE expression. -/
def botNatLe : WithBot ℕ → WithBot ℕ → Bool
  | none, _ => true
  | some _, none => false
  | some x, some y => decide (x ≤ y)

/-- Less-or-equal on `created_at` values with SQL NULL first (ascending). -/
def optStrLe : Option String → Option String → Bool
  | none, _ => true
  | some _, none => false
  | some s, some t => strLe s t

/-- Comparison for `ORDER BY deadline ASC`. -/
def deadlineLe (a b : TaskRec) : Prop := strLe a.deadline b.deadline = true

/-- Comparison for `ORDER BY CASE priority ... END` (ascending, NULLs first). -/
def priorityLe (a b : TaskRec) : Prop :=
  botNatLe (priorityCase a.priority) (priorityCase b.priority) = true

/-- Comparison for `ORDER BY created_at DESC`: `a` comes no later than `b`
exactly when `b.created_at` is no greater than `a.created_at` in the
ascending NULLs-first order. -/
def createdDesc (a b : TaskRec) : Prop := optStrLe b.created_at a.created_at = true

instance : DecidableRel deadlineLe := fun a b => by unfold deadlineLe; infer_instance
instance : DecidableRel priorityLe := fun a b => by unfold priorityLe; infer_instance
instance : DecidableRel createdDesc := fun a b => by unfold createdDesc; infer_instance

/-- `botNatLe` is total. -/
theorem botNatLe_total (x y : WithBot ℕ) : botNatLe x y = true ∨ botNatLe y x = true := by
  cases x <;> cases y <;> simp [botNatLe]
  omega

/-- `botNatLe` is transitive. -/
theorem botNatLe_trans {x y z : WithBot ℕ} (h1 : botNatLe x y = true)
    (h2 : botNatLe y z = true) : botNatLe x z = true := by
  cases x <;> cases y <;> cases z <;> simp_all [botNatLe]
  omega

instance : IsTotal TaskRec priorityLe :=
  ⟨fun a b => botNatLe_total (priorityCase a.priority) (priorityCase b.priority)⟩
instance : IsTrans TaskRec priorityLe := ⟨fun _ _ _ h h2 => botNatLe_trans h h2⟩

/-- The Python truthiness test `if status_filter and 'status' in columns`. -/
def statusFilterApplies (status_filter : Option String) (db : DB) : Bool :=
  (match status_filter with
   | some s => s ≠ ""
   | none => false) && db.hasStatus

/-- The result set of the query `get_tasks` builds
(src/task_tracker.py lines 79-113): the SELECT list over every row, the WHERE
clause applied only when the filter is truthy and the `status` column exists,
and the ORDER BY clause — deadline ascending, the priority rank CASE, or
`created_at DESC`, the latter two only when the column exists, no ordering
otherwise. -/
def get_tasks_rows (nowStr : String) (status_filter : Option String) (sort_by : String)
    (db : DB) : List TaskRec :=
  let recs := db.rows.map (selectRec nowStr db)
  let recs :=
    if statusFilterApplies status_filter db then
      recs.filter (fun r => r.status = status_filter)
    else recs
  if sort_by = "deadline" then recs.insertionSort deadlineLe
  else if sort_by = "priority" ∧ db.hasPriority = true then recs.insertionSort priorityLe
  else if sort_by = "created" ∧ db.hasCreatedAt = true then recs.insertionSort createdDesc
  else recs

/-- `get_tasks` (src/task_tracker.py lines 70-115): executes the query built
from the columns actually present. -/
def get_tasks (nowStr : String) (status_filter : Option String) (sort_by : String)
    (db : DB) : Except String (List TaskRec) := do
  requireColumns (columnsOf db) db
  pure (get_tasks_rows nowStr status_filter sort_by db)

/-! ## Dates, the due-soon evaluator, and the reminder cycle -/

/-- Parse a nonempty decimal digit string. -/
def parseDigits (cs : List Char) : Option Nat :=
  if cs ≠ [] ∧ cs.all Char.isDigit then
    some (cs.foldl (fun n c => 10 * n + (c.toNat - 48)) 0)
  else none

/-- Split a character list on the `-` separator (the behaviour of
`"...".split("-")` on the date strings at hand): `splitDash "a-b"` is
`["a", "b"]`, the empty string yields one empty component. -/
def splitDash : List Char → List (List Char)
  | [] => [[]]
  | c :: rest =>
    if c = '-' then [] :: splitDash rest
    else
      match splitDash rest with
      | [] => [[c]]
      | h :: t => (c :: h) :: t

/-- Gregorian leap-year rule. -/
def isLeapYear (y : Nat) : Bool := (y % 4 == 0 && y % 100 != 0) || y % 400 == 0

/-- Days in the months strictly before month `m`. -/
def daysBeforeMonth (leap : Bool) (m : Nat) : Nat :=
  let base := [0, 31, 59, 90, 120, 151, 181, 212, 243, 273, 304, 334].getD (m - 1) 0
  if leap && m > 2 then base + 1 else base

/-- Number of days of month `m` in year `y`. -/
def daysInMonth (y m : Nat) : Nat :=
  if m = 2 then (if isLeapYear y then 29 else 28)
  else if m = 4 ∨ m = 6 ∨ m = 9 ∨ m = 11 then 30
  else 31

/-- Proleptic Gregorian ordinal, as Python `date.toordinal`: 0001-01-01 maps
to 1. -/
def toOrdinal (y m d : Nat) : Nat :=
  365 * (y - 1) + (y - 1) / 4 - (y - 1) / 100 + (y - 1) / 400
    + daysBeforeMonth (isLeapYear y) m + d

/-- `datetime.strptime(deadline, '%Y-%m-%d')`, returned as the ordinal of the
parsed date (the parsed datetime is midnight of that day); `none` models the
`ValueError` raised on text that is not a valid `YYYY-MM-DD` calendar date. -/
def parseDate (s : String) : Option Nat :=
  match splitDash s.toList with
  | [ys, ms, ds] =>
    match parseDigits ys, parseDigits ms, parseDigits ds with
    | some y, some m, some d =>
      if 1 ≤ y ∧ y ≤ 9999 ∧ 1 ≤ m ∧ m ≤ 12 ∧ 1 ≤ d ∧ d ≤ daysInMonth y m then
        some (toOrdinal y m d)
      else none
    | _, _, _ => none
  | _ => none

/-- Python `(deadline_dt - now).days`: datetimes are seconds on the time line
where midnight of the day with ordinal `o` is `o * 86400`, and
`timedelta.days` is floor division of the difference by 86400. -/
def days_until (deadlineOrd : Nat) (now : Int) : Int :=
  Int.fdiv ((deadlineOrd : Int) * 86400 - now) 86400

/-- One iteration of the loop of `get_due_soon_tasks`
(src/task_tracker.py lines 139-157): records from `get_tasks` always carry 8
fields so the `len(task) < 7` guard never fires; skip `Completed` tasks, skip
tasks whose deadline fails to parse, keep the record paired with `days_until`
when `days_until <= 1 and days_until >= 0`. -/
def dueSoonEntry (now : Int) (t : TaskRec) : Option (TaskRec × Int) :=
  if t.status = some "Completed" then none
  else
    match parseDate t.deadline with
    | none => none
    | some d =>
      if days_until d now ≤ 1 ∧ 0 ≤ days_until d now then some (t, days_until d now)
      else none

/-- `get_due_soon_tasks` (src/task_tracker.py lines 134-159): `get_tasks()`
with default arguments, then the filtering loop. `now` is `datetime.now()` in
seconds; `nowStr` is the current timestamp as text, used only for the
`created_at` substitution inside `get_tasks`. -/
def get_due_soon_tasks (now : Int) (nowStr : String) (db : DB) :
    Except String (List (TaskRec × Int)) := do
  let tasks ← get_tasks nowStr none "deadline" db
  pure (tasks.filterMap (dueSoonEntry now))

/-- Urgency label (src/task_tracker.py line 172):
`"TODAY" if days_until == 0 else "TOMORROW"`. -/
def urgencyLabel (daysUntil : Int) : String :=
  if daysUntil = 0 then "TODAY" else "TOMORROW"

/-- What `notification.notify` does for one task: succeed, raise `ImportError`
(plyer not installed), or raise some other exception (e.g.
`NotImplementedError` from a platform with no notification support). -/
inductive NotifyOutcome where
  | ok
  | importError
  | otherError
deriving DecidableEq

/-- The console line printed for one task (src/task_tracker.py line 186). -/
def consoleLine (t : TaskRec) (urgency : String) : String :=
  "REMINDER: Task " ++ t.title ++ " is due " ++ urgency ++ " (" ++ t.deadline ++ ")!"

/-- The per-task loop of `send_reminders` (src/task_tracker.py lines 165-190):
compute the urgency, try the desktop notification — the `except` clause
catches only `ImportError` — then print the console line. Returns the console
lines actually emitted, and `some e` when an uncaught exception aborted the
loop before reaching the remaining tasks. -/
def send_reminders_loop (env : TaskRec → NotifyOutcome) :
    List (TaskRec × Int) → List String × Option String
  | [] => ([], none)
  | (t, k) :: rest =>
    let urgency := urgencyLabel k
    match env t with
    | .otherError => ([], some "uncaught exception in notification.notify")
    | _ =>
      let next := send_reminders_loop env rest
      (consoleLine t urgency :: next.1, next.2)

/-- `send_reminders` (src/task_tracker.py lines 162-190): evaluate the
due-soon tasks, then run the notification loop. -/
def send_reminders (env : TaskRec → NotifyOutcome) (now : Int) (nowStr : String)
    (db : DB) : Except String (List String × Option String) := do
  let due ← get_due_soon_tasks now nowStr db
  pure (send_reminders_loop env due)

/-- A database file that does not exist yet (fresh working directory). -/
def emptyDB : DB :=
  { tableExists := false, hasPriority := false, hasStatus := false,
    hasCreatedAt := false, createdAtDefault := false, nextId := 1, rows := [] }

/-! ## Concrete fixtures

`toOrdinal 2024 1 10 = 738895`. `nowNoonJan10` is the instant
2024-01-10 12:00:00 on the second time line; `tsNoonJan10` the same instant
as text. -/

/-- 2024-01-10 12:00:00 as seconds (ordinal 738895, half a day in). -/
def nowNoonJan10 : Int := (738895 : Int) * 86400 + 43200

/-- 2024-01-10 12:00:00 as a timestamp string. -/
def tsNoonJan10 : String := "2024-01-10 12:00:00"

/-- A fully migrated database with the given rows. -/
def fullSchemaDB (rows : List TaskRow) (nextId : Nat) : DB :=
  { tableExists := true, hasPriority := true, hasStatus := true,
    hasCreatedAt := true, createdAtDefault := true, nextId := nextId, rows := rows }

/-- A pending task whose deadline is today, 2024-01-10. -/
def rowDueToday : TaskRow :=
  ⟨1, "Report", "2024-01-10", "", "", some "Medium", some "Pending",
    some "2024-01-09 09:00:00"⟩

/-- Database holding only `rowDueToday`. -/
def dbDueToday : DB := fullSchemaDB [rowDueToday] 2

/-- A pending task whose deadline, 2024-01-12, is two days after today. -/
def rowTwoDays : TaskRow :=
  ⟨1, "Report", "2024-01-12", "", "", some "Medium", some "Pending",
    some "2024-01-09 09:00:00"⟩

/-- Database holding only `rowTwoDays`. -/
def dbTwoDays : DB := fullSchemaDB [rowTwoDays] 2

/-- The record `get_tasks` returns for `rowTwoDays`. -/
def recTwoDays : TaskRec :=
  ⟨1, "Report", "2024-01-12", "", "", some "Medium", some "Pending",
    some "2024-01-09 09:00:00"⟩

/-- The freshly created database, as `init_db` leaves `emptyDB`. -/
def dbFresh : DB := fullSchemaDB [] 1

/-- The row inserted for the end-to-end scenario: title `Report`, deadline
tomorrow (2024-01-11), priority High. -/
def reportRow : TaskRow :=
  ⟨1, "Report", "2024-01-11", "", "", some "High", some "Pending", some tsNoonJan10⟩

/-- Database after inserting `reportRow` into `dbFresh`. -/
def dbReport : DB := fullSchemaDB [reportRow] 2

/-- The record `get_tasks` returns for `reportRow`. -/
def reportRec : TaskRec :=
  ⟨1, "Report", "2024-01-11", "", "", some "High", some "Pending", some tsNoonJan10⟩

/-- A row of a legacy database that predates the three extended columns. -/
def legacyRow : TaskRow := ⟨1, "Old report", "2024-01-15", "", "", none, none, none⟩

/-- A legacy database: table exists, extended columns absent. -/
def legacyDB : DB :=
  { tableExists := true, hasPriority := false, hasStatus := false,
    hasCreatedAt := false, createdAtDefault := false, nextId := 2, rows := [legacyRow] }

/-- A row whose stored priority `Urgent` is outside High/Medium/Low. -/
def rowOddPrio : TaskRow :=
  ⟨1, "Odd", "2024-01-20", "", "", some "Urgent", some "Pending", some "t"⟩

/-- A High-priority row. -/
def rowHighPrio : TaskRow :=
  ⟨2, "Usual", "2024-01-21", "", "", some "High", some "Pending", some "t"⟩

/-- Database holding `rowOddPrio` and `rowHighPrio`. -/
def dbOddPrio : DB := fullSchemaDB [rowOddPrio, rowHighPrio] 3

/-- Record for `rowOddPrio`. -/
def recOddPrio : TaskRec :=
  ⟨1, "Odd", "2024-01-20", "", "", some "Urgent", some "Pending", some "t"⟩

/-- Record for `rowHighPrio`. -/
def recHighPrio : TaskRec :=
  ⟨2, "Usual", "2024-01-21", "", "", some "High", some "Pending", some "t"⟩

/-- A row whose deadline text `soon` does not parse as a date. -/
def rowBadDeadline : TaskRow :=
  ⟨1, "Vague", "soon", "", "", some "Low", some "Pending", some "t"⟩

/-- A pending row due tomorrow (2024-01-11). -/
def rowGoodDue : TaskRow :=
  ⟨2, "Precise", "2024-01-11", "", "", some "Low", some "Pending", some "t"⟩

/-- Record for `rowGoodDue`. -/
def recGoodDue : TaskRec :=
  ⟨2, "Precise", "2024-01-11", "", "", some "Low", some "Pending", some "t"⟩

/-- Record for `rowBadDeadline`. -/
def recBadDeadline : TaskRec :=
  ⟨1, "Vague", "soon", "", "", some "Low", some "Pending", some "t"⟩

/-- Database mixing an unparseable deadline with a parseable one. -/
def dbMixed : DB := fullSchemaDB [rowBadDeadline, rowGoodDue] 3

/-! ## Helper lemmas -/

/-- A statement that names only physically present columns executes. -/
theorem requireColumns_ok (refs : List String) (db : DB)
    (h : ∀ c ∈ refs, c ∈ columnsOf db) : requireColumns refs db = .ok () := by
  unfold requireColumns
  have hf : refs.find? (fun c => !(columnsOf db).contains c) = none := by
    rw [List.find?_eq_none]
    intro c hc
    simp [List.contains, h c hc]
  rw [hf]

/-- The SELECT of `get_tasks` names only present columns, so it executes. -/
theorem get_tasks_eq (nowStr : String) (sf : Option String) (sb : String) (db : DB) :
    get_tasks nowStr sf sb db = .ok (get_tasks_rows nowStr sf sb db) := by
  unfold get_tasks
  rw [requireColumns_ok _ _ (fun c hc => hc)]
  rfl

/-- `get_due_soon_tasks` always returns the filtered task list, never an
error. -/
theorem get_due_soon_eq (now : Int) (nowStr : String) (db : DB) :
    get_due_soon_tasks now nowStr db =
      .ok ((get_tasks_rows nowStr none "deadline" db).filterMap (dueSoonEntry now)) := by
  unfold get_due_soon_tasks
  rw [get_tasks_eq]
  rfl

/-- Inversion of one due-soon loop iteration: a produced entry is the record
itself, not Completed, with a parseable deadline and `days_until` in range. -/
theorem dueSoonEntry_eq_some {now : Int} {a t : TaskRec} {k : Int}
    (h : dueSoonEntry now a = some (t, k)) :
    t = a ∧ a.status ≠ some "Completed" ∧
      ∃ d, parseDate a.deadline = some d ∧ k = days_until d now ∧ 0 ≤ k ∧ k ≤ 1 := by
  unfold dueSoonEntry at h
  by_cases hc : a.status = some "Completed"
  · rw [if_pos hc] at h
    cases h
  · rw [if_neg hc] at h
    cases hp : parseDate a.deadline with
    | none => rw [hp] at h; cases h
    | some d =>
      rw [hp] at h
      dsimp only at h
      by_cases hr : days_until d now ≤ 1 ∧ 0 ≤ days_until d now
      · rw [if_pos hr] at h
        cases h
        exact ⟨rfl, hc, d, rfl, rfl, hr.2, hr.1⟩
      · rw [if_neg hr] at h
        cases h

/-! ## Claims -/

/-- C1: the claim states that `getDueSoonTasks` computes `daysUntil` as the
floor of the whole-day difference between the deadline date and today, and in
particular returns a task whose deadline equals today's date (status not
Completed) with `daysUntil == 0`. The code instead subtracts the full current
datetime from midnight of the deadline date: at 2024-01-10 12:00:00 the
pending task with deadline `2024-01-10` — today's date (ordinal 738895) —
gets `days_until = -1` and is excluded altogether, contradicting the claim. -/
theorem dueToday_task_dropped_at_noon :
    parseDate "2024-01-10" = some 738895
    ∧ nowNoonJan10.fdiv 86400 = 738895
    ∧ rowDueToday.status = some "Pending"
    ∧ rowDueToday.deadline = "2024-01-10"
    ∧ days_until 738895 nowNoonJan10 = -1
    ∧ get_due_soon_tasks nowNoonJan10 tsNoonJan10 dbDueToday = .ok [] :=
  ⟨rfl, rfl, rfl, rfl, rfl, rfl⟩

/-- C2: the claim states that a task whose deadline is two or more calendar
days after today's date is excluded. At 2024-01-10 12:00:00 (today's ordinal
738895) the task with deadline `2024-01-12` (ordinal 738897, two days ahead)
gets `days_until = floor(1.5) = 1` and is returned by `get_due_soon_tasks`,
contradicting the claim. -/
theorem twoDaysAhead_task_included_at_noon :
    parseDate "2024-01-12" = some 738897
    ∧ nowNoonJan10.fdiv 86400 = 738895
    ∧ rowTwoDays.status = some "Pending"
    ∧ days_until 738897 nowNoonJan10 = 1
    ∧ get_due_soon_tasks nowNoonJan10 tsNoonJan10 dbTwoDays = .ok [(recTwoDays, 1)] :=
  ⟨rfl, rfl, rfl, rfl, rfl⟩

/-- C3: the claim states the end-to-end scenario — insert a task due tomorrow,
run the due-soon evaluation — yields the task with `daysUntil == 1` and the
urgency label `TOMORROW`. Running the embedded pipeline at 2024-01-10
12:00:00 (today's ordinal 738895): the inserted task with deadline
`2024-01-11` (ordinal 738896, tomorrow) comes back with `daysUntil = 0` and
the reminder labels it `TODAY`, contradicting the claim (the label rule
"TODAY iff daysUntil == 0" itself matches the code). -/
theorem tomorrow_task_labeled_today :
    init_db tsNoonJan10 emptyDB = .ok dbFresh
    ∧ add_task tsNoonJan10 "Report" "2024-01-11" "" "" "High" dbFresh = .ok dbReport
    ∧ parseDate "2024-01-11" = some 738896
    ∧ nowNoonJan10.fdiv 86400 = 738895
    ∧ get_due_soon_tasks nowNoonJan10 tsNoonJan10 dbReport = .ok [(reportRec, 0)]
    ∧ urgencyLabel 0 = "TODAY"
    ∧ send_reminders (fun _ => .ok) nowNoonJan10 tsNoonJan10 dbReport =
        .ok (["REMINDER: Task Report is due TODAY (2024-01-11)!"], none) :=
  ⟨rfl, rfl, rfl, rfl, rfl, rfl, rfl⟩

/-- C4: a task whose status is `Completed` is never included in the result of
`get_due_soon_tasks`, whatever its deadline and whatever the database state:
the loop skips any record with `status == 'Completed'` before looking at the
deadline. -/
theorem completed_never_due_soon (now : Int) (nowStr : String) (db : DB)
    (res : List (TaskRec × Int)) (h : get_due_soon_tasks now nowStr db = .ok res) :
    ∀ t k, (t, k) ∈ res → t.status ≠ some "Completed" := by
  rw [get_due_soon_eq] at h
  injection h with h
  subst h
  intro t k hm
  rw [List.mem_filterMap] at hm
  obtain ⟨a, _, ha⟩ := hm
  obtain ⟨rfl, hst, -⟩ := dueSoonEntry_eq_some ha
  exact hst

/-- Witness for C4 at a concrete database: the returned pending task is
indeed not Completed. -/
theorem completed_never_due_soon_witness : recTwoDays.status ≠ some "Completed" :=
  completed_never_due_soon nowNoonJan10 tsNoonJan10 dbTwoDays [(recTwoDays, 1)]
    rfl recTwoDays 1 (by simp)

/-- C9: `get_due_soon_tasks` never raises on an unparseable deadline: it
always returns `.ok` of the filtered list; every returned entry has a
deadline that parses; and every fetched record that the loop body maps to an
entry reaches the result — a record with an unparseable deadline is skipped
by its own iteration and never suppresses the evaluation of the others. -/
theorem unparseable_deadline_skipped (now : Int) (nowStr : String) (db : DB) :
    get_due_soon_tasks now nowStr db =
      .ok ((get_tasks_rows nowStr none "deadline" db).filterMap (dueSoonEntry now))
    ∧ (∀ t k,
        (t, k) ∈ (get_tasks_rows nowStr none "deadline" db).filterMap (dueSoonEntry now) →
        parseDate t.deadline ≠ none)
    ∧ (∀ t, t ∈ get_tasks_rows nowStr none "deadline" db →
        ∀ e, dueSoonEntry now t = some e →
        e ∈ (get_tasks_rows nowStr none "deadline" db).filterMap (dueSoonEntry now)) := by
  refine ⟨get_due_soon_eq now nowStr db, ?_, ?_⟩
  · intro t k hm
    rw [List.mem_filterMap] at hm
    obtain ⟨a, _, ha⟩ := hm
    obtain ⟨rfl, -, d, hd, -⟩ := dueSoonEntry_eq_some ha
    rw [hd]
    exact fun hco => by cases hco
  · intro t hmem e he
    rw [List.mem_filterMap]
    exact ⟨t, hmem, he⟩

/-- Witness for C9 at a concrete database mixing the unparseable deadline
`soon` with a task due tomorrow: the parseable task still reaches the result
of the evaluation. -/
theorem unparseable_deadline_skipped_witness :
    (recGoodDue, (0 : Int)) ∈
      (get_tasks_rows tsNoonJan10 none "deadline" dbMixed).filterMap
        (dueSoonEntry nowNoonJan10) :=
  (unparseable_deadline_skipped nowNoonJan10 tsNoonJan10 dbMixed).2.2 recGoodDue
    (by rw [show get_tasks_rows tsNoonJan10 none "deadline" dbMixed =
        [recGoodDue, recBadDeadline] from rfl]; simp) (recGoodDue, 0) rfl

/-- The priority sort branch of `get_tasks_rows`. -/
theorem get_tasks_rows_priority_eq (nowStr : String) (sf : Option String) (db : DB)
    (hp : db.hasPriority = true) :
    get_tasks_rows nowStr sf "priority" db =
      List.insertionSort priorityLe
        (if statusFilterApplies sf db then
          (db.rows.map (selectRec nowStr db)).filter (fun r => r.status = sf)
        else db.rows.map (selectRec nowStr db)) := by
  unfold get_tasks_rows
  rw [if_neg (by decide), if_pos ⟨rfl, hp⟩]

/-- C10: under `sortBy = priority`, a stored priority outside High/Medium/Low
is ranked NULL (`⊥`) by the ORDER BY CASE expression, the query returns
normally, its result is sorted by the NULLs-first rank order, and hence an
unknown-priority row never appears after a High row. -/
theorem unknown_priority_sorts_before_high (nowStr : String) (sf : Option String)
    (db : DB) (hp : db.hasPriority = true) (res : List TaskRec)
    (h : get_tasks nowStr sf "priority" db = .ok res) :
    (∀ p : Option String, p ≠ some "High" → p ≠ some "Medium" → p ≠ some "Low" →
      priorityCase p = ⊥)
    ∧ (∀ i j : Fin res.length, i < j →
        botNatLe (priorityCase (res.get i).priority)
          (priorityCase (res.get j).priority) = true)
    ∧ (∀ i j : Fin res.length, i < j → priorityCase (res.get j).priority = ⊥ →
        (res.get i).priority ≠ some "High") := by
  rw [get_tasks_eq] at h
  injection h with h
  subst h
  have hsort : List.Sorted priorityLe (get_tasks_rows nowStr sf "priority" db) := by
    rw [get_tasks_rows_priority_eq nowStr sf db hp]
    exact List.sorted_insertionSort priorityLe _
  refine ⟨?_, ?_, ?_⟩
  · intro p h1 h2 h3
    simp [priorityCase, h1, h2, h3]
  · intro i j hij
    exact hsort.rel_get_of_lt hij
  · intro i j hij hbot hhigh
    have hrel := hsort.rel_get_of_lt hij
    unfold priorityLe at hrel
    have h1 : priorityCase (List.get (get_tasks_rows nowStr sf "priority" db) i).priority
        = ((1 : ℕ) : WithBot ℕ) := by rw [hhigh]; rfl
    rw [h1, hbot] at hrel
    exact absurd hrel (by decide)

/-- Witness for C10 on a concrete database holding a row with priority
`Urgent` and a High row: the query sorts the unknown row first. -/
theorem unknown_priority_sorts_before_high_witness :
    priorityCase (some "Urgent") = ⊥
    ∧ botNatLe (priorityCase recOddPrio.priority) (priorityCase recHighPrio.priority) = true :=
  ⟨(unknown_priority_sorts_before_high tsNoonJan10 none dbOddPrio rfl
      [recOddPrio, recHighPrio] rfl).1 (some "Urgent")
      (by decide) (by decide) (by decide),
   by
    have h := (unknown_priority_sorts_before_high tsNoonJan10 none dbOddPrio rfl
      [recOddPrio, recHighPrio] rfl).2.1 ⟨0, by decide⟩ ⟨1, by decide⟩ (by decide)
    simpa using h⟩

/-- C5 counterexample: one task is due; its desktop notification fails with
an exception that is not an `ImportError` (e.g. plyer's
`NotImplementedError` on a platform without notification support). The
`except ImportError` clause does not catch it: the reminder cycle aborts, no
console line is emitted for the task, contradicting the claim that any
delivery failure is swallowed with the console notification still emitted. -/
theorem notify_failure_aborts_cycle :
    get_due_soon_tasks nowNoonJan10 tsNoonJan10 dbReport = .ok [(reportRec, 0)]
    ∧ send_reminders (fun _ => .otherError) nowNoonJan10 tsNoonJan10 dbReport =
        .ok ([], some "uncaught exception in notification.notify") :=
  ⟨rfl, rfl⟩

/-- C5 (amended): only an `ImportError` from the desktop notification is
swallowed — when no task's notification raises anything other than
`ImportError`, every task gets its console line, in order, and the cycle
completes; whereas any other exception on a task aborts the cycle at that
task, before its console line and before the remaining tasks. -/
theorem importError_swallowed_console_emitted (env : TaskRec → NotifyOutcome)
    (due : List (TaskRec × Int)) :
    ((∀ t k, (t, k) ∈ due → env t ≠ .otherError) →
      send_reminders_loop env due =
        (due.map (fun e => consoleLine e.1 (urgencyLabel e.2)), none))
    ∧ (∀ t k rest, env t = .otherError →
      send_reminders_loop env ((t, k) :: rest) =
        ([], some "uncaught exception in notification.notify")) := by
  constructor
  · intro h
    induction due with
    | nil => rfl
    | cons hd tl ih =>
      obtain ⟨t, k⟩ := hd
      have ht : env t ≠ .otherError := h t k (by simp)
      have htl : ∀ t k, (t, k) ∈ tl → env t ≠ .otherError :=
        fun t k hm => h t k (by simp [hm])
      cases he : env t with
      | otherError => exact absurd he ht
      | ok => simp [send_reminders_loop, he, ih htl]
      | importError => simp [send_reminders_loop, he, ih htl]
  · intro t k rest he
    simp [send_reminders_loop, he]

/-- Witness for C5: with plyer absent (`ImportError` on every task), the
console line of the single due task is still emitted and the cycle ends
normally. -/
theorem importError_swallowed_console_emitted_witness :
    send_reminders_loop (fun _ => .importError) [(reportRec, 0)] =
      ([consoleLine reportRec (urgencyLabel 0)], none) := by
  have h := (importError_swallowed_console_emitted (fun _ => .importError)
    [(reportRec, 0)]).1 (fun t k _ => by decide)
  simpa using h

/-- The INSERT of `add_task` names only physically present columns. -/
theorem add_task_columns_subset (db : DB) : ∀ c ∈ add_task_columns db, c ∈ columnsOf db := by
  rcases db with ⟨te, hp, hs, hc, cd, ni, rows⟩
  cases hp <;> cases hs <;> cases hc <;>
  · intro c hcm
    fin_cases hcm <;> simp [columnsOf]

/-- C6: `add_task` checks at call time which extended columns exist and its
INSERT names only columns physically present; it runs the extended insert —
`status` fixed to Pending and `created_at` the current timestamp, whatever
the arguments — exactly when `priority`, `status` and `created_at` all
exist, and otherwise falls back to the baseline INSERT naming only title,
deadline, problems, requirements. -/
theorem add_task_inserts_present_columns (nowStr t d p r pr : String) (db : DB) :
    (∀ c ∈ add_task_columns db, c ∈ columnsOf db)
    ∧ add_task nowStr t d p r pr db = .ok { db with
        nextId := db.nextId + 1
        rows := db.rows ++
          [if db.hasPriority && db.hasStatus && db.hasCreatedAt then
            extendedRow nowStr t d p r pr db
          else baselineRow nowStr t d p r db] }
    ∧ ((db.hasPriority && db.hasStatus && db.hasCreatedAt) = false →
        add_task_columns db = ["title", "deadline", "problems", "requirements"])
    ∧ (extendedRow nowStr t d p r pr db).status = some "Pending"
    ∧ (extendedRow nowStr t d p r pr db).created_at = some nowStr := by
  rcases db with ⟨te, hp, hs, hc, cd, ni, rows⟩
  refine ⟨add_task_columns_subset _, ?_, ?_, rfl, rfl⟩
  · cases hp <;> cases hs <;> cases hc <;> rfl
  · cases hp <;> cases hs <;> cases hc <;>
      first
      | exact fun h => Bool.noConfusion h
      | exact fun _ => rfl

/-- Witness for C6 on the legacy database: all extended columns are absent,
and the INSERT falls back to the four baseline columns. -/
theorem add_task_inserts_present_columns_witness :
    add_task_columns legacyDB = ["title", "deadline", "problems", "requirements"] :=
  (add_task_inserts_present_columns "ts" "T" "2024-02-02" "" "" "Medium" legacyDB).2.2.1 rfl

/-- C7: `init_db` never fails, and is idempotent — a second call returns the
very same database, hence an identical column set and row count as calling
it once; no column is ever dropped (the column set only grows) and the row
count is preserved. -/
theorem init_db_twice_same (now1 now2 : String) (db : DB) :
    ∃ db1,
      init_db now1 db = .ok db1
      ∧ init_db now2 db1 = .ok db1
      ∧ (∀ c, c ∈ columnsOf db → c ∈ columnsOf db1)
      ∧ db1.rows.length = db.rows.length := by
  rcases db with ⟨te, hp, hs, hc, cd, ni, rows⟩
  cases te <;> cases hp <;> cases hs <;> cases hc <;>
    exact ⟨_, rfl, rfl,
      by
        intro c hcm
        simp [columnsOf, createTableIfNotExists, backfillCreatedAt, alterAddPriority,
          alterAddStatus, alterAddCreatedAt] at hcm ⊢
        tauto,
      by
        simp [createTableIfNotExists, backfillCreatedAt, alterAddPriority,
          alterAddStatus, alterAddCreatedAt]⟩

/-- C8 counterexample: on the legacy database whose `tasks` table lacks the
`priority`, `status` and `created_at` columns, `update_task_status` does not
succeed: its UPDATE names the absent `status` column and fails with a
storage error. -/
theorem update_task_status_fails_on_legacy :
    update_task_status 1 "Completed" legacyDB = .error "no such column: status" := rfl

/-- C8 (amended): on any database — the legacy one lacking the three
extended columns included — `add_task`, `get_tasks` and `delete_task`
succeed without a storage error, but `update_task_status` fails with a
no-such-column storage error whenever the `status` column is absent. -/
theorem legacy_schema_store_ops (nowStr t d p r pr : String) (sf : Option String)
    (sb : String) (taskId : Nat) (st : String) (db : DB) :
    (∃ db1, add_task nowStr t d p r pr db = .ok db1)
    ∧ get_tasks nowStr sf sb db = .ok (get_tasks_rows nowStr sf sb db)
    ∧ (∃ db2, delete_task taskId db = .ok db2)
    ∧ (db.hasStatus = false →
        update_task_status taskId st db = .error "no such column: status") := by
  refine ⟨?_, get_tasks_eq nowStr sf sb db, ?_, ?_⟩
  · rcases db with ⟨te, hp, hs, hc, cd, ni, rows⟩
    cases hp <;> cases hs <;> cases hc <;> exact ⟨_, rfl⟩
  · exact ⟨_, rfl⟩
  · intro hst
    rcases db with ⟨te, hp, hs, hc, cd, ni, rows⟩
    subst hst
    cases hp <;> cases hc <;> rfl

/-- Witness for C8 at the legacy database: inserting succeeds while the
status update fails with the storage error. -/
theorem legacy_schema_store_ops_witness :
    (∃ db1, add_task "ts" "T" "2024-02-02" "" "" "Medium" legacyDB = .ok db1)
    ∧ update_task_status 7 "In Progress" legacyDB = .error "no such column: status" :=
  ⟨(legacy_schema_store_ops "ts" "T" "2024-02-02" "" "" "Medium" none "deadline" 7
      "In Progress" legacyDB).1,
   (legacy_schema_store_ops "ts" "T" "2024-02-02" "" "" "Medium" none "deadline" 7
      "In Progress" legacyDB).2.2.2 rfl⟩
